import Mathlib

/-!
Verification of the pykimuracore packaging script (src/setup.py).

The script declares one native extension (distutils Extension) and hands it
to the build driver (distutils setup).  The concrete values below are
embedded directly from setup.py; the Declare/Build contract of the build
driver is not part of src/ and is modelled from the specification.
-/

/-- An extension descriptor: a module name bound to a list of source paths.
Mirrors distutils.extension.Extension as used by setup.py. -/
structure Extension where
  name : String
  sources : List String
deriving Repr, DecidableEq

/-- From setup.py line 8: the module-name constant pykimuracore. -/
def my_ext_name : String := "pykimuracore"

/-- From setup.py line 10: Extension(my_ext_name, [my_ext_name + '.c']). -/
def my_ext : Extension := Extension.mk my_ext_name [my_ext_name ++ ".c"]

/-- The keyword arguments passed to setup() in setup.py lines 12-16. -/
structure SetupArgs where
  name : String
  version : String
  ext_modules : List Extension
deriving Repr, DecidableEq

/-- From setup.py lines 12-16: name, version and the ext_modules list. -/
def setupArgs : SetupArgs := SetupArgs.mk my_ext_name "0.1" [my_ext]

/-- Modelled from the spec: the error kinds of the build contract (spec
section 7); the build driver raising them (distutils) is not under src/. -/
inductive BuildError where
  | ConfigurationError
  | SourceNotFoundError
  | CompilationError
deriving Repr, DecidableEq

/-- A filesystem: a partial map from paths to file contents (byte lists). -/
def FileSys : Type := String → Option (List Nat)

/-- A compiled loadable binary module, carrying its load name. -/
structure BinaryArtifact where
  loadName : String
  contents : List Nat
deriving Repr, DecidableEq

/-- Modelled from the spec: Declare(name, sources) fails with
ConfigurationError if name is empty or sources is empty; otherwise it is
pure construction of an immutable descriptor, with no filesystem check
(spec section 4.1; the distutils code realising this is not under src/). -/
def Declare (name : String) (sources : List String) : Except BuildError Extension :=
  if name = "" then Except.error BuildError.ConfigurationError
  else if sources = [] then Except.error BuildError.ConfigurationError
  else Except.ok (Extension.mk name sources)

/-- Read every listed source from the filesystem; none when a path is
missing. -/
def readAll (fs : FileSys) : List String → Option (List (List Nat))
  | [] => some []
  | p :: ps =>
    match fs p with
    | none => none
    | some c =>
      match readAll fs ps with
      | none => none
      | some cs => some (c :: cs)

/-- A deterministic toolchain: maps the source contents to a compiled
binary, or none when the compiler rejects the sources. -/
def Toolchain : Type := List (List Nat) → Option (List Nat)

/-- Modelled from the spec: Build(descriptor) emits one loadable binary
module named after the descriptor; it fails with SourceNotFoundError when a
declared source path is missing and with CompilationError when the compiler
rejects the source (spec section 4.1; distutils is not under src/). -/
def Build (comp : Toolchain) (fs : FileSys) (d : Extension) :
    Except BuildError BinaryArtifact :=
  match readAll fs d.sources with
  | none => Except.error BuildError.SourceNotFoundError
  | some cs =>
    match comp cs with
    | none => Except.error BuildError.CompilationError
    | some bin => Except.ok (BinaryArtifact.mk d.name bin)

/-- Modelled from the spec: the setup() invocation builds each declared
extension in order; the version field is informational metadata and plays no
role in compilation (spec sections 3 and 4.1). -/
def runSetup (comp : Toolchain) (fs : FileSys) (args : SetupArgs) :
    Except BuildError (List BinaryArtifact) :=
  args.ext_modules.mapM (Build comp fs)

/-- A sample filesystem holding exactly the expected C source. -/
def fsWith (contents : List Nat) : FileSys :=
  fun p => if p = my_ext_name ++ ".c" then some contents else none

/-- A filesystem with no files at all. -/
def fsEmpty : FileSys := fun _ => none

/-- A sample toolchain that accepts any input. -/
def compOk : Toolchain := fun _ => some [7]

/-- If some listed source is missing from the filesystem, reading all the
sources fails. -/
theorem readAll_eq_none (fs : FileSys) (s : String) (l : List String)
    (hmem : s ∈ l) (hmiss : fs s = none) : readAll fs l = none := by
  induction l with
  | nil => cases hmem
  | cons p ps ih =>
    rcases List.mem_cons.mp hmem with h | h
    · subst h
      unfold readAll
      rw [hmiss]
    · unfold readAll
      cases hp : fs p with
      | none => rfl
      | some c => rw [ih h]

/-- C1: for every valid pair (name, sources) whose sources are all readable
and whose contents the toolchain accepts, Build produces exactly one
artifact, and its load name is name; instantiated in the witness at the
concrete scenario Declare("pykimuracore", ["pykimuracore.c"]). -/
theorem build_names_artifact_after_name
    (comp : Toolchain) (fs : FileSys) (name : String) (sources : List String)
    (d : Extension) (cs : List (List Nat)) (bin : List Nat)
    (hdecl : Declare name sources = Except.ok d)
    (hread : readAll fs sources = some cs)
    (hcomp : comp cs = some bin) :
    Build comp fs d = Except.ok (BinaryArtifact.mk name bin) := by
  unfold Declare at hdecl
  by_cases h1 : name = ""
  · simp [h1] at hdecl
  · by_cases h2 : sources = []
    · simp [h1, h2] at hdecl
    · simp only [h1, h2, if_false, Except.ok.injEq] at hdecl
      subst hdecl
      simp [Build, hread, hcomp]

/-- Witness for C1 at the concrete scenario of the spec. -/
theorem build_names_artifact_after_name_witness :
    Build compOk (fsWith [1, 2]) my_ext =
      Except.ok (BinaryArtifact.mk my_ext_name [7]) :=
  build_names_artifact_after_name compOk (fsWith [1, 2]) my_ext_name
    [my_ext_name ++ ".c"] my_ext [[1, 2]] [7] rfl rfl rfl

/-- C2: Declare fails with ConfigurationError whenever the name is the empty
string or the source list is empty; no descriptor value is produced. -/
theorem declare_rejects_malformed (name : String) (sources : List String)
    (h : name = "" ∨ sources = []) :
    Declare name sources = Except.error BuildError.ConfigurationError := by
  unfold Declare
  rcases h with h | h
  · simp [h]
  · subst h
    by_cases h1 : name = "" <;> simp [h1]

/-- Witness for C2 on both malformed shapes named by the spec. -/
theorem declare_rejects_malformed_witness :
    Declare "" ["pykimuracore.c"] = Except.error BuildError.ConfigurationError ∧
    Declare "pykimuracore" [] = Except.error BuildError.ConfigurationError :=
  And.intro (declare_rejects_malformed "" ["pykimuracore.c"] (Or.inl rfl))
    (declare_rejects_malformed "pykimuracore" [] (Or.inr rfl))

/-- C3: Declare performs no filesystem check and succeeds for any nonempty
name and nonempty source list even when a listed path does not exist; the
missing source is detected only by Build, which then fails with
SourceNotFoundError and produces no artifact. -/
theorem missing_source_detected_at_build
    (comp : Toolchain) (fs : FileSys) (name : String) (sources : List String)
    (s : String) (hname : name ≠ "") (hsrc : sources ≠ [])
    (hmem : s ∈ sources) (hmiss : fs s = none) :
    Declare name sources = Except.ok (Extension.mk name sources) ∧
    Build comp fs (Extension.mk name sources) =
      Except.error BuildError.SourceNotFoundError := by
  constructor
  · unfold Declare
    simp [hname, hsrc]
  · unfold Build
    rw [readAll_eq_none fs s sources hmem hmiss]

/-- Witness for C3: the repository descriptor on an empty filesystem. -/
theorem missing_source_detected_at_build_witness :
    Declare my_ext_name [my_ext_name ++ ".c"] = Except.ok my_ext ∧
    Build compOk fsEmpty my_ext = Except.error BuildError.SourceNotFoundError :=
  missing_source_detected_at_build compOk fsEmpty my_ext_name
    [my_ext_name ++ ".c"] (my_ext_name ++ ".c") (by decide) (by decide)
    (List.mem_singleton.mpr rfl) rfl

/-- C4: this repository passes exactly one descriptor to the build step, and
the descriptor's name determines the load name of the output artifact. -/
theorem single_descriptor_determines_load_name
    (comp : Toolchain) (fs : FileSys) (a : BinaryArtifact)
    (h : Build comp fs my_ext = Except.ok a) :
    setupArgs.ext_modules.length = 1 ∧ a.loadName = my_ext.name := by
  refine And.intro rfl ?_
  unfold Build at h
  cases hr : readAll fs my_ext.sources with
  | none => rw [hr] at h; cases h
  | some cs =>
    rw [hr] at h
    simp only at h
    cases hc : comp cs with
    | none => simp [hc] at h
    | some bin =>
      simp only [hc] at h
      cases h
      rfl

/-- Witness for C4 at a concrete successful build. -/
theorem single_descriptor_determines_load_name_witness :
    setupArgs.ext_modules.length = 1 ∧
    (BinaryArtifact.mk my_ext_name [7]).loadName = my_ext.name :=
  single_descriptor_determines_load_name compOk (fsWith [0])
    (BinaryArtifact.mk my_ext_name [7]) rfl

/-- C5: Build is deterministic and idempotent on an unchanged descriptor:
under a fixed deterministic toolchain and unchanged sources, two successful
invocations yield bit-for-bit equal artifacts. -/
theorem build_idempotent
    (comp : Toolchain) (fs : FileSys) (d : Extension) (a1 a2 : BinaryArtifact)
    (h1 : Build comp fs d = Except.ok a1)
    (h2 : Build comp fs d = Except.ok a2) : a1 = a2 := by
  rw [h1] at h2
  cases h2
  rfl

/-- Witness for C5: two concrete builds of the repository descriptor. -/
theorem build_idempotent_witness :
    BinaryArtifact.mk my_ext_name [7] = BinaryArtifact.mk my_ext_name [7] :=
  build_idempotent compOk (fsWith [3]) my_ext
    (BinaryArtifact.mk my_ext_name [7]) (BinaryArtifact.mk my_ext_name [7])
    rfl rfl

/-- C6: Declare is pure value construction: the descriptor it returns is
exactly the record of the given name and sources, so the value Build later
consumes is the unmutated construction. -/
theorem declare_pure_construction
    (name : String) (sources : List String) (d : Extension)
    (h : Declare name sources = Except.ok d) :
    d = Extension.mk name sources := by
  unfold Declare at h
  by_cases h1 : name = ""
  · simp [h1] at h
  · by_cases h2 : sources = []
    · simp [h1, h2] at h
    · simp only [h1, h2, if_false, Except.ok.injEq] at h
      exact h.symm

/-- Witness for C6 on the repository descriptor. -/
theorem declare_pure_construction_witness :
    my_ext = Extension.mk my_ext_name [my_ext_name ++ ".c"] :=
  declare_pure_construction my_ext_name [my_ext_name ++ ".c"] my_ext rfl

/-- C7: the version field is informational only: two setup invocations that
differ only in the version string produce identical results, hence the same
binary artifact and load name. -/
theorem version_informational_only
    (comp : Toolchain) (fs : FileSys) (n v1 v2 : String)
    (exts : List Extension) :
    runSetup comp fs (SetupArgs.mk n v1 exts) =
      runSetup comp fs (SetupArgs.mk n v2 exts) := rfl

/-- C8: the descriptor constructed by setup.py satisfies the validity
preconditions — nonempty name and exactly one source — so Declare accepts it
and the ConfigurationError branch is unreachable for this build invocation. -/
theorem my_ext_satisfies_preconditions :
    my_ext.name ≠ "" ∧ my_ext.sources.length = 1 ∧
    Declare my_ext.name my_ext.sources = Except.ok my_ext :=
  And.intro (by decide) (And.intro rfl rfl)

/-- C9: the source path is derived from the module name: the sources list of
the descriptor equals the name with the .c suffix appended. -/
theorem sources_derived_from_name :
    my_ext.sources = [my_ext.name ++ ".c"] := rfl

/-- C10: the distribution name passed to setup equals the extension module's
name; both are the constant pykimuracore. -/
theorem dist_name_eq_ext_name :
    setupArgs.name = my_ext.name ∧ setupArgs.name = "pykimuracore" :=
  And.intro rfl rfl
